import Mathlib

/-!
Shallow embedding of the account subsystem of thatsayon/payparo
(app/accounts/models.py): the custom account manager
(normalize_email_strict, create_user, create_superuser), the
UserAccount model hooks (clean, save) and the OTP validity checks
(is_valid, is_expired).

Python strings are modelled as lists of code points; datetimes and
timedeltas are modelled as integer numbers of seconds; the ambient
clock read by django.utils.timezone.now is modelled as an explicit
Clock environment; Python exceptions become Except results.
-/

/-- Python strings, modelled as lists of code points. -/
abbrev PyStr := List Nat

/-- Code points of a Lean string literal, for concrete examples. -/
def pyOfString (s : String) : PyStr := s.data.map Char.toNat

/-- One code point of Python str.lower, on the ASCII range: the letters
A-Z (65-90) move down by 32, every other code point is unchanged. -/
def pyToLower (c : Nat) : Nat := if 65 ≤ c ∧ c ≤ 90 then c + 32 else c

/-- Python str.lower, applied pointwise. -/
def pyLower (s : PyStr) : PyStr := s.map pyToLower

/-- The whitespace code points removed by Python str.strip: space, tab,
newline, carriage return, vertical tab and form feed. -/
def pyIsSpace (c : Nat) : Bool :=
  decide (c = 32 ∨ c = 9 ∨ c = 10 ∨ c = 13 ∨ c = 11 ∨ c = 12)

/-- Leading-whitespace removal, the left half of Python str.strip. -/
def pyLStrip (s : PyStr) : PyStr := s.dropWhile pyIsSpace

/-- Trailing-whitespace removal, the right half of Python str.strip. -/
def pyRStrip (s : PyStr) : PyStr := s.rdropWhile pyIsSpace

/-- Python str.strip: remove leading and trailing whitespace. -/
def pyStrip (s : PyStr) : PyStr := pyRStrip (pyLStrip s)

/-- True of a code point that is not the at sign (64). -/
def isNotAt (c : Nat) : Bool := !(c == 64)

/-- Python str.rsplit at the last at sign, returning the part before it
and the part after it, or none when the string has no at sign. -/
def rsplitAtSign (s : PyStr) : Option (PyStr × PyStr) :=
  match s.reverse.dropWhile isNotAt with
  | [] => none
  | _ :: restRev => some (restRev.reverse, (s.reverse.takeWhile isNotAt).reverse)

/-- Models BaseUserManager.normalize_email of the framework, which the
manager method normalize_email_strict calls: strip the input, split at
the last at sign and lower-case the domain part; when no at sign is
present the input is returned unchanged. -/
def normalize_email (email : PyStr) : PyStr :=
  match rsplitAtSign (pyStrip email) with
  | none => email
  | some (name, domain) => name ++ [64] ++ pyLower domain

/-- The auth_provider choices of UserAccount. -/
inductive AuthProvider
  | email
  | google
deriving DecidableEq

/-- The ValidationError raised by UserAccount.clean; the source raises
it with the message about OAuth users needing provider_uid. -/
inductive ValidationError
  | invalidProvider
deriving DecidableEq

/-- The ValueError raised by the manager methods, with its message. -/
inductive AccountError
  | valueError (msg : String)
deriving DecidableEq

/-- The UserAccount model fields that the manager and the model hooks
read or write, with the field defaults of the source. -/
structure UserAccount where
  email : PyStr
  full_name : PyStr := []
  auth_provider : AuthProvider := AuthProvider.email
  provider_uid : Option PyStr := none
  is_staff : Bool := false
  is_superuser : Bool := false
  is_active : Bool := true
  is_banned : Bool := false
  password : Option PyStr := none
deriving DecidableEq

/-- Python truthiness of an optional string: None and the empty string
are falsy, every non-empty string is truthy. -/
def pyFalsy : Option PyStr → Bool
  | none => true
  | some s => s.isEmpty

/-- UserAccount.clean: raise ValidationError when the auth provider is
not EMAIL and provider_uid is falsy, succeed otherwise. -/
def UserAccount.clean (a : UserAccount) : Except ValidationError Unit :=
  if a.auth_provider ≠ AuthProvider.email ∧ pyFalsy a.provider_uid = true then
    Except.error ValidationError.invalidProvider
  else
    Except.ok ()

/-- UserAccount.save: when the email is truthy, replace it by its
lower-cased and stripped form, then persist. -/
def UserAccount.save (a : UserAccount) : UserAccount :=
  if a.email.isEmpty then a else { a with email := pyStrip (pyLower a.email) }

/-- The keyword arguments of create_user and create_superuser that the
manager itself reads or writes; absent keys are none. -/
structure ExtraFields where
  is_staff : Option Bool := none
  is_superuser : Option Bool := none
  is_active : Option Bool := none
deriving DecidableEq

namespace CustomAccountManager

/-- CustomAccountManager.normalize_email_strict: the framework
normalize_email, then str.lower, then str.strip. -/
def normalize_email_strict (email : PyStr) : PyStr :=
  pyStrip (pyLower (normalize_email email))

/-- CustomAccountManager.create_user: reject a falsy email with
ValueError, normalize the email, build the account from the keyword
arguments (a falsy password leaves the password unusable, modelled as
none) and save it. -/
def create_user (email : PyStr) (password : Option PyStr) (extra_fields : ExtraFields) :
    Except AccountError UserAccount :=
  if email.isEmpty then
    Except.error (AccountError.valueError ("Email must be provided"))
  else
    let email := normalize_email_strict email
    let user : UserAccount :=
      { email := email
        is_staff := extra_fields.is_staff.getD false
        is_superuser := extra_fields.is_superuser.getD false
        is_active := extra_fields.is_active.getD true
        password := match password with
          | some p => if p.isEmpty then none else some p
          | none => none }
    Except.ok user.save

/-- CustomAccountManager.create_superuser: default is_staff,
is_superuser and is_active to True, reject an explicit falsy is_staff
or is_superuser with ValueError, then delegate to create_user. -/
def create_superuser (email : PyStr) (password : Option PyStr) (extra_fields : ExtraFields) :
    Except AccountError UserAccount :=
  let ef : ExtraFields :=
    { is_staff := some (extra_fields.is_staff.getD true)
      is_superuser := some (extra_fields.is_superuser.getD true)
      is_active := some (extra_fields.is_active.getD true) }
  if ef.is_staff = some false then
    Except.error (AccountError.valueError ("Superuser must have is_staff=True"))
  else if ef.is_superuser = some false then
    Except.error (AccountError.valueError ("Superuser must have is_superuser=True"))
  else
    create_user email password ef

end CustomAccountManager

/-- Models datetime.timedelta with a minutes argument, as an integer
number of seconds; datetimes are likewise integer seconds. -/
def timedelta_minutes (m : Int) : Int := 60 * m

/-- The ambient clock read by django.utils.timezone.now. -/
structure Clock where
  now : Int
deriving DecidableEq

/-- The OTP model fields read by its validity checks. -/
structure OTP where
  otp_hash : PyStr := []
  created_at : Int
deriving DecidableEq

/-- OTP.is_valid: read the ambient clock and compare it, inclusively,
against created_at plus the expiry window; the Python default of
expiry_minutes is 5. -/
def OTP.is_valid (env : Clock) (otp : OTP) (expiry_minutes : Int) : Bool :=
  let expiry_time := otp.created_at + timedelta_minutes expiry_minutes
  decide (env.now ≤ expiry_time)

/-- OTP.is_expired: the Boolean negation of OTP.is_valid. -/
def OTP.is_expired (env : Clock) (otp : OTP) (expiry_minutes : Int) : Bool :=
  !(OTP.is_valid env otp expiry_minutes)

/-- pyFalsy holds exactly of None and of the empty string. -/
theorem pyFalsy_iff (o : Option PyStr) : pyFalsy o = true ↔ (o = none ∨ o = some []) := by
  cases o with
  | none => simp [pyFalsy]
  | some s => cases s <;> simp [pyFalsy]

/-- Lower-casing one code point twice is the same as once. -/
theorem pyToLower_idem (c : Nat) : pyToLower (pyToLower c) = pyToLower c := by
  simp only [pyToLower]
  split <;> rename_i h
  · rw [if_neg (by omega)]
  · rfl

/-- Lower-casing does not change whether a code point is whitespace. -/
theorem pyIsSpace_pyToLower (c : Nat) : pyIsSpace (pyToLower c) = pyIsSpace c := by
  simp only [pyToLower, pyIsSpace]
  split <;> rename_i h
  · simp only [decide_eq_decide]
    omega
  · rfl

/-- The whitespace test composed with lower-casing is the whitespace test. -/
theorem pyIsSpace_comp_pyToLower : (pyIsSpace ∘ pyToLower) = pyIsSpace :=
  funext fun c => pyIsSpace_pyToLower c

/-- pyLower distributes over append. -/
theorem pyLower_append (a b : PyStr) : pyLower (a ++ b) = pyLower a ++ pyLower b :=
  List.map_append pyToLower a b

/-- pyLower is idempotent. -/
theorem pyLower_idem (s : PyStr) : pyLower (pyLower s) = pyLower s := by
  simp only [pyLower, List.map_map]
  exact List.map_congr_left fun c _ => pyToLower_idem c

/-- Left strip commutes with lower-casing. -/
theorem pyLStrip_pyLower (s : PyStr) : pyLStrip (pyLower s) = pyLower (pyLStrip s) := by
  simp only [pyLStrip, pyLower, List.dropWhile_map, pyIsSpace_comp_pyToLower]

/-- Right strip commutes with lower-casing. -/
theorem pyRStrip_pyLower (s : PyStr) : pyRStrip (pyLower s) = pyLower (pyRStrip s) := by
  simp only [pyRStrip, List.rdropWhile, pyLower, ← List.map_reverse,
    List.dropWhile_map, pyIsSpace_comp_pyToLower]

/-- Strip commutes with lower-casing. -/
theorem pyStrip_pyLower (s : PyStr) : pyStrip (pyLower s) = pyLower (pyStrip s) := by
  simp only [pyStrip, pyLStrip_pyLower, pyRStrip_pyLower]

/-- The head of a non-trivial dropWhile result fails the predicate. -/
theorem dropWhile_eq_cons_head_false {p : Nat → Bool} :
    ∀ {s : PyStr} {x : Nat} {xs : PyStr}, s.dropWhile p = x :: xs → p x = false := by
  intro s
  induction s with
  | nil =>
    intro x xs h
    simp [List.dropWhile] at h
  | cons a as ih =>
    intro x xs h
    rw [List.dropWhile_cons] at h
    by_cases hp : p a
    · rw [if_pos hp] at h
      exact ih h
    · rw [if_neg hp] at h
      cases h
      simpa using hp

/-- rdropWhile keeps a head that fails the predicate. -/
theorem rdropWhile_cons_head_false (p : Nat → Bool) (x : Nat) (xs : PyStr)
    (h : p x = false) :
    List.rdropWhile p (x :: xs) = x :: List.rdropWhile p xs := by
  simp only [List.rdropWhile, List.reverse_cons, List.dropWhile_append]
  split <;> rename_i hsplit
  · have hnil : xs.reverse.dropWhile p = [] := by simpa using hsplit
    simp [List.dropWhile_cons, h, hnil]
  · simp

/-- pyStrip is idempotent. -/
theorem pyStrip_idem (s : PyStr) : pyStrip (pyStrip s) = pyStrip s := by
  cases hD : pyLStrip s with
  | nil =>
    simp only [pyStrip, hD]
    simp [pyRStrip, pyLStrip]
  | cons x xs =>
    have hx : pyIsSpace x = false := dropWhile_eq_cons_head_false hD
    have h1 : pyRStrip (x :: xs) = x :: List.rdropWhile pyIsSpace xs :=
      rdropWhile_cons_head_false pyIsSpace x xs hx
    have h2 : pyLStrip (pyRStrip (x :: xs)) = pyRStrip (x :: xs) := by
      rw [h1]
      simp [pyLStrip, List.dropWhile_cons, hx]
    simp only [pyStrip, hD, h2]
    exact List.rdropWhile_idempotent pyIsSpace (x :: xs)

/-- Dropping from the left past an all-satisfying block. -/
theorem dropWhile_append_of_all {p : Nat → Bool} {u : PyStr} (t : PyStr)
    (hu : ∀ c ∈ u, p c = true) : (u ++ t).dropWhile p = t.dropWhile p := by
  rw [List.dropWhile_append, List.dropWhile_eq_nil_iff.mpr hu]
  simp

/-- Dropping from the right past an all-satisfying block. -/
theorem rdropWhile_append_of_all {p : Nat → Bool} (t : PyStr) {v : PyStr}
    (hv : ∀ c ∈ v, p c = true) : List.rdropWhile p (t ++ v) = List.rdropWhile p t := by
  simp only [List.rdropWhile, List.reverse_append]
  rw [dropWhile_append_of_all t.reverse (fun c hc => hv c (List.mem_reverse.mp hc))]

/-- Strip is unchanged by surrounding whitespace. -/
theorem pyStrip_surround {u v : PyStr} (s : PyStr)
    (hu : ∀ c ∈ u, pyIsSpace c = true) (hv : ∀ c ∈ v, pyIsSpace c = true) :
    pyStrip (u ++ s ++ v) = pyStrip s := by
  have h1 : pyLStrip (u ++ s ++ v) = pyLStrip (s ++ v) := by
    show (u ++ s ++ v).dropWhile pyIsSpace = (s ++ v).dropWhile pyIsSpace
    rw [List.append_assoc]
    exact dropWhile_append_of_all (s ++ v) hu
  rw [pyStrip, h1]
  cases hD : pyLStrip s with
  | nil =>
    have hs : ∀ c ∈ s, pyIsSpace c = true := List.dropWhile_eq_nil_iff.mp hD
    have h2 : pyLStrip (s ++ v) = pyLStrip v := dropWhile_append_of_all v hs
    have h3 : pyLStrip v = [] := List.dropWhile_eq_nil_iff.mpr hv
    rw [h2, h3, pyStrip, hD]
  | cons x xs =>
    have hD2 : s.dropWhile pyIsSpace = x :: xs := hD
    have h2 : pyLStrip (s ++ v) = x :: (xs ++ v) := by
      show (s ++ v).dropWhile pyIsSpace = x :: (xs ++ v)
      rw [List.dropWhile_append, hD2]
      rfl
    rw [h2, pyStrip, hD]
    exact rdropWhile_append_of_all (x :: xs) hv

/-- A successful rsplitAtSign decomposes the string at its last at sign. -/
theorem rsplitAtSign_eq_some {s n d : PyStr} (h : rsplitAtSign s = some (n, d)) :
    s = n ++ [64] ++ d := by
  unfold rsplitAtSign at h
  cases hdw : s.reverse.dropWhile isNotAt with
  | nil =>
    rw [hdw] at h
    exact absurd h (by simp)
  | cons c rest =>
    rw [hdw] at h
    have hc : isNotAt c = false := dropWhile_eq_cons_head_false hdw
    have hc64 : c = 64 := by
      simpa [isNotAt] using hc
    simp only [Option.some.injEq, Prod.mk.injEq] at h
    obtain ⟨hn, hd⟩ := h
    have hsplit : s.reverse.takeWhile isNotAt ++ (c :: rest) = s.reverse := by
      rw [← hdw]
      exact List.takeWhile_append_dropWhile isNotAt s.reverse
    subst hn
    subst hd
    subst hc64
    calc s = s.reverse.reverse := (List.reverse_reverse s).symm
    _ = (s.reverse.takeWhile isNotAt ++ (64 :: rest)).reverse := by rw [hsplit]
    _ = (64 :: rest).reverse ++ (s.reverse.takeWhile isNotAt).reverse := by
        rw [List.reverse_append]
    _ = rest.reverse ++ [64] ++ (s.reverse.takeWhile isNotAt).reverse := by
        rw [List.reverse_cons]

/-- The manager normalization is lower-casing after stripping: the final
lower and strip of normalize_email_strict subsume the partial
normalization done by the framework normalize_email. -/
theorem normalize_email_strict_eq (e : PyStr) :
    CustomAccountManager.normalize_email_strict e = pyLower (pyStrip e) := by
  unfold CustomAccountManager.normalize_email_strict normalize_email
  cases hsp : rsplitAtSign (pyStrip e) with
  | none => exact pyStrip_pyLower e
  | some nd =>
    obtain ⟨n, d⟩ := nd
    have hrec : pyStrip e = n ++ [64] ++ d := rsplitAtSign_eq_some hsp
    have hlow : pyLower (n ++ [64] ++ pyLower d) = pyLower (pyStrip e) := by
      rw [hrec]
      simp only [pyLower_append, pyLower_idem]
    show pyStrip (pyLower (n ++ [64] ++ pyLower d)) = pyLower (pyStrip e)
    rw [hlow, pyStrip_pyLower, pyStrip_idem]

/-- Evaluation form of OTP.is_valid. -/
theorem is_valid_eq (env : Clock) (otp : OTP) (m : Int) :
    OTP.is_valid env otp m = decide (env.now ≤ otp.created_at + 60 * m) := rfl

/-- C2: for every OTP record, clock reading now, and expiry window,
is_valid is true exactly when now is at most created_at plus the
window, and the boundary instant itself is still valid. -/
theorem C2_is_valid_iff (env : Clock) (otp : OTP) (m : Int) :
    (OTP.is_valid env otp m = true ↔
      env.now ≤ otp.created_at + timedelta_minutes m) ∧
    OTP.is_valid { now := otp.created_at + timedelta_minutes m } otp m = true := by
  constructor
  · simp [OTP.is_valid]
  · simp [OTP.is_valid]

/-- C3: is_expired is the exact Boolean negation of is_valid on the
same OTP record, clock and expiry window. -/
theorem C3_is_expired_not_is_valid (env : Clock) (otp : OTP) (m : Int) :
    OTP.is_expired env otp m = !(OTP.is_valid env otp m) ∧
    (OTP.is_expired env otp m = true ↔ ¬ OTP.is_valid env otp m = true) := by
  constructor
  · rfl
  · simp [OTP.is_expired]

/-- C6 counterexample: with expiry window -1 the creation instant is
not valid, although the claim states it remains valid for any zero or
negative window. -/
theorem C6_counterexample :
    ¬ (OTP.is_valid { now := 0 } { created_at := 0 } (-1) = true) := by
  decide

/-- C6 amended: for a zero or negative window, is_valid is false at any
instant strictly after creation; the creation instant itself remains
valid when the window is exactly zero, but with a strictly negative
window even the creation instant is invalid. -/
theorem C6_amended_zero_or_negative_window (env : Clock) (otp : OTP) (m : Int)
    (hm : m ≤ 0) :
    (otp.created_at < env.now → OTP.is_valid env otp m = false) ∧
    (m = 0 → env.now = otp.created_at → OTP.is_valid env otp m = true) ∧
    (m < 0 → env.now = otp.created_at → OTP.is_valid env otp m = false) := by
  refine ⟨fun h => ?_, fun hz he => ?_, fun hn he => ?_⟩ <;>
    rw [is_valid_eq] <;>
    simp only [decide_eq_true_eq, decide_eq_false_iff_not, not_le] <;> omega

/-- C6 amended witness at concrete inputs. -/
theorem C6_amended_witness :
    OTP.is_valid { now := 1 } { created_at := 0 } 0 = false ∧
    OTP.is_valid { now := 0 } { created_at := 0 } 0 = true ∧
    OTP.is_valid { now := 0 } { created_at := 0 } (-1) = false := by
  refine ⟨?_, ?_, ?_⟩
  · exact (C6_amended_zero_or_negative_window { now := 1 } { created_at := 0 } 0
      (by decide)).1 (by decide)
  · exact (C6_amended_zero_or_negative_window { now := 0 } { created_at := 0 } 0
      (by decide)).2.1 rfl rfl
  · exact (C6_amended_zero_or_negative_window { now := 0 } { created_at := 0 } (-1)
      (by decide)).2.2 (by decide) rfl

/-- C7 counterexample: with the OTP record and the expiry window fixed,
two different ambient clock readings give different results, so
is_valid does read the ambient clock rather than taking now as an
explicit input. -/
theorem C7_counterexample :
    ¬ (OTP.is_valid { now := 0 } { created_at := 0 } 5 =
       OTP.is_valid { now := 301 } { created_at := 0 } 5) := by
  decide

/-- C7 amended: is_valid and is_expired read the ambient clock through
timezone.now; given equal clock readings and identical OTP record and
expiry window, both return the same boolean, so they are deterministic
in the clock reading. -/
theorem C7_amended_deterministic (e1 e2 : Clock) (otp : OTP) (m : Int)
    (h : e1.now = e2.now) :
    OTP.is_valid e1 otp m = OTP.is_valid e2 otp m ∧
    OTP.is_expired e1 otp m = OTP.is_expired e2 otp m := by
  obtain ⟨n1⟩ := e1
  obtain ⟨n2⟩ := e2
  have h2 : n1 = n2 := h
  subst h2
  exact ⟨rfl, rfl⟩

/-- C7 amended witness at concrete inputs. -/
theorem C7_amended_witness :
    OTP.is_valid { now := 7 } { created_at := 0 } 5 =
    OTP.is_valid { now := 7 } { created_at := 0 } 5 :=
  (C7_amended_deterministic { now := 7 } { now := 7 } { created_at := 0 } 5 rfl).1

/-- C9: create_user rejects a falsy email with ValueError carrying the
message about a required email, and returns no account. -/
theorem C9_create_user_requires_email (email : PyStr) (pw : Option PyStr)
    (ef : ExtraFields) (h : email = []) :
    CustomAccountManager.create_user email pw ef =
      Except.error (AccountError.valueError ("Email must be provided")) := by
  subst h
  rfl

/-- C9 witness at concrete inputs. -/
theorem C9_witness :
    CustomAccountManager.create_user [] none {} =
      Except.error (AccountError.valueError ("Email must be provided")) :=
  C9_create_user_requires_email [] none {} rfl

/-- C4: normalize_email_strict is idempotent: applying it twice equals
applying it once, for every string. -/
theorem C4_normalize_email_strict_idempotent (s : PyStr) :
    CustomAccountManager.normalize_email_strict
        (CustomAccountManager.normalize_email_strict s) =
      CustomAccountManager.normalize_email_strict s := by
  rw [normalize_email_strict_eq, normalize_email_strict_eq,
    pyStrip_pyLower, pyLower_idem, pyStrip_idem]

/-- C5: two strings that differ only in letter case of a common core
and in surrounding whitespace normalize to the same output. -/
theorem C5_normalize_email_strict_case_space_insensitive
    (u v u2 v2 s0 t0 : PyStr)
    (hu : ∀ c ∈ u, pyIsSpace c = true) (hv : ∀ c ∈ v, pyIsSpace c = true)
    (hu2 : ∀ c ∈ u2, pyIsSpace c = true) (hv2 : ∀ c ∈ v2, pyIsSpace c = true)
    (hcase : pyLower s0 = pyLower t0) :
    CustomAccountManager.normalize_email_strict (u ++ s0 ++ v) =
      CustomAccountManager.normalize_email_strict (u2 ++ t0 ++ v2) := by
  rw [normalize_email_strict_eq, normalize_email_strict_eq,
    pyStrip_surround s0 hu hv, pyStrip_surround t0 hu2 hv2,
    ← pyStrip_pyLower, ← pyStrip_pyLower, hcase]

/-- C5 witness at the spec example inputs. -/
theorem C5_witness :
    CustomAccountManager.normalize_email_strict
        ([32] ++ pyOfString ("User@Example.COM") ++ [32]) =
      CustomAccountManager.normalize_email_strict
        ([] ++ pyOfString ("user@example.com") ++ []) :=
  C5_normalize_email_strict_case_space_insensitive [32] [32] [] []
    (pyOfString ("User@Example.COM")) (pyOfString ("user@example.com"))
    (by decide) (by decide) (by decide) (by decide) (by decide)

/-- C1: clean fails with the provider validation error exactly when the
auth provider is not EMAIL and provider_uid is absent or empty, and
succeeds on every other combination. -/
theorem C1_clean_invalid_provider_iff (a : UserAccount) :
    (UserAccount.clean a = Except.error ValidationError.invalidProvider ↔
      (a.auth_provider ≠ AuthProvider.email ∧
        (a.provider_uid = none ∨ a.provider_uid = some []))) ∧
    (¬ (a.auth_provider ≠ AuthProvider.email ∧
        (a.provider_uid = none ∨ a.provider_uid = some [])) →
      UserAccount.clean a = Except.ok ()) := by
  by_cases hc : a.auth_provider ≠ AuthProvider.email ∧ pyFalsy a.provider_uid = true
  · have hp : a.provider_uid = none ∨ a.provider_uid = some [] := (pyFalsy_iff _).mp hc.2
    have herr : UserAccount.clean a = Except.error ValidationError.invalidProvider := by
      rw [UserAccount.clean, if_pos hc]
    constructor
    · constructor
      · intro _
        exact ⟨hc.1, hp⟩
      · intro _
        exact herr
    · intro hn
      exact absurd ⟨hc.1, hp⟩ hn
  · have hok : UserAccount.clean a = Except.ok () := by
      rw [UserAccount.clean, if_neg hc]
    constructor
    · constructor
      · intro h
        rw [hok] at h
        exact Except.noConfusion h
      · intro h
        exact absurd ⟨h.1, (pyFalsy_iff _).mpr h.2⟩ hc
    · intro _
      exact hok

/-- C1 witness: a Google account with an empty provider uid fails; an
EMAIL account with an empty provider uid succeeds. -/
theorem C1_witness :
    UserAccount.clean
        { email := pyOfString ("g@x.io"), auth_provider := AuthProvider.google,
          provider_uid := some [] } =
      Except.error ValidationError.invalidProvider ∧
    UserAccount.clean
        { email := pyOfString ("e@x.io"), auth_provider := AuthProvider.email,
          provider_uid := some [] } =
      Except.ok () := by
  constructor
  · exact (C1_clean_invalid_provider_iff _).1.mpr ⟨by decide, Or.inr rfl⟩
  · exact (C1_clean_invalid_provider_iff _).2 (fun h => h.1 rfl)

/-- C8: the persisted email always equals the lower-cased, stripped
form of the email that was set: save normalizes on every write, and an
account returned by create_user carries the normalized email too. -/
theorem C8_saved_email_normalized (a : UserAccount) (email : PyStr)
    (pw : Option PyStr) (ef : ExtraFields) (u : UserAccount)
    (h : CustomAccountManager.create_user email pw ef = Except.ok u) :
    (UserAccount.save a).email = pyLower (pyStrip a.email) ∧
    u.email = pyLower (pyStrip email) := by
  constructor
  · by_cases he : a.email.isEmpty = true
    · have hnil : a.email = [] := by simpa using he
      rw [UserAccount.save, if_pos he, hnil]
      rfl
    · rw [UserAccount.save, if_neg he]
      exact pyStrip_pyLower a.email
  · unfold CustomAccountManager.create_user at h
    split at h
    · exact Except.noConfusion h
    · simp only [Except.ok.injEq] at h
      subst h
      rw [UserAccount.save]
      split
      · exact normalize_email_strict_eq email
      · show pyStrip (pyLower (CustomAccountManager.normalize_email_strict email)) =
          pyLower (pyStrip email)
        rw [normalize_email_strict_eq, pyLower_idem, pyStrip_pyLower, pyStrip_idem]

/-- C8 witness at concrete inputs. -/
theorem C8_witness :
    (UserAccount.save { email := pyOfString (" X@Y.z ") }).email =
      pyLower (pyStrip (pyOfString (" X@Y.z "))) ∧
    ({ email := pyOfString ("a@b.c") } : UserAccount).email =
      pyLower (pyStrip (pyOfString ("a@B.c"))) :=
  C8_saved_email_normalized { email := pyOfString (" X@Y.z ") }
    (pyOfString ("a@B.c")) none {} { email := pyOfString ("a@b.c") } rfl

/-- C10: create_superuser rejects an explicit falsy is_staff or
is_superuser with the matching ValueError, and every account it
returns successfully has is_staff and is_superuser set. -/
theorem C10_create_superuser_flags (email : PyStr) (pw : Option PyStr)
    (ef : ExtraFields) :
    (ef.is_staff = some false →
      CustomAccountManager.create_superuser email pw ef =
        Except.error (AccountError.valueError ("Superuser must have is_staff=True"))) ∧
    (ef.is_staff ≠ some false → ef.is_superuser = some false →
      CustomAccountManager.create_superuser email pw ef =
        Except.error (AccountError.valueError ("Superuser must have is_superuser=True"))) ∧
    (∀ u, CustomAccountManager.create_superuser email pw ef = Except.ok u →
      u.is_staff = true ∧ u.is_superuser = true) := by
  obtain ⟨st, su, ac⟩ := ef
  refine ⟨?_, ?_, ?_⟩
  · intro h
    have h2 : st = some false := h
    subst h2
    rfl
  · intro h1 h2
    have hsu : su = some false := h2
    subst hsu
    have hst : st.getD true = true := by
      cases st with
      | none => rfl
      | some b =>
        cases b with
        | false => exact absurd rfl h1
        | true => rfl
    simp [CustomAccountManager.create_superuser, hst]
  · intro u hu
    simp only [CustomAccountManager.create_superuser] at hu
    split at hu
    · exact Except.noConfusion hu
    · split at hu
      · exact Except.noConfusion hu
      · rename_i hneg1 hneg2
        have hst : st.getD true = true := by
          cases hb : st.getD true with
          | false => exact absurd (by rw [hb]) hneg1
          | true => rfl
        have hsu : su.getD true = true := by
          cases hb : su.getD true with
          | false => exact absurd (by rw [hb]) hneg2
          | true => rfl
        unfold CustomAccountManager.create_user at hu
        split at hu
        · exact Except.noConfusion hu
        · simp only [Except.ok.injEq] at hu
          subst hu
          rw [UserAccount.save]
          split <;> exact ⟨by simp [hst], by simp [hsu]⟩

/-- C10 witness: an explicit is_staff of False is rejected, and a plain
superuser creation yields staff and superuser flags. -/
theorem C10_witness :
    CustomAccountManager.create_superuser (pyOfString ("a@b.c")) none
        { is_staff := some false } =
      Except.error (AccountError.valueError ("Superuser must have is_staff=True")) ∧
    ({ email := pyOfString ("a@b.c"), is_staff := true, is_superuser := true } :
        UserAccount).is_staff = true ∧
    ({ email := pyOfString ("a@b.c"), is_staff := true, is_superuser := true } :
        UserAccount).is_superuser = true := by
  refine ⟨?_, ?_⟩
  · exact (C10_create_superuser_flags (pyOfString ("a@b.c")) none
      { is_staff := some false }).1 rfl
  · exact (C10_create_superuser_flags (pyOfString ("a@b.c")) none {}).2.2
      { email := pyOfString ("a@b.c"), is_staff := true, is_superuser := true }
      rfl
